import Mathlib

/-!
Verification of the narrow-phase collision stage (`src/collision/narrow_phase.rs`)
of the avian physics engine, against its natural-language specification.

The embedding below models the margin resolution and contact-pair pipeline of
`NarrowPhase::handle_entity_pair` / `compute_contact_pair` / `generate_constraints`,
the registry lifecycle systems `reset_collision_states` and `remove_ended_collisions`,
and the per-step composition of those systems.

Modelling conventions:
* `Scalar` (an `f32`/`f64` in the source) is modelled as `ℚ`.
* `Vector` quantities (linear velocities, contact positions) are modelled
  one-dimensionally: the length of a vector is the absolute value.  All facts
  used about vector lengths (nonnegativity, the triangle inequality, the
  behaviour of `clamp_length_max`) hold in this model exactly as for 2D/3D vectors.
* The sentinel `Scalar::MAX` ("unbounded" speculative margin) is modelled by a
  dedicated constructor `EScalar.unbounded`; a stored finite margin is `EScalar.fin q`.
  The source test `speculative_margin < Scalar::MAX` corresponds to the margin
  being `fin`.
* Entity handles are natural numbers (Bevy entities carry a total order).
* The `Collisions` registry (whose implementation lives outside this file tree)
  is modelled as an association list keyed by an entity pair; per its
  specification, insertion uses the canonical (smaller, larger) key.
-/

namespace Avian

/-- Entity handles, with their total order. -/
abbrev Entity := Nat

/-- The scalar type of the engine (`f32`/`f64` in the source), modelled as `ℚ`. -/
abbrev Scalar := ℚ

/-- A scalar that may be the `Scalar::MAX` "unbounded" sentinel used for
speculative margins. -/
inductive EScalar where
  | fin (q : Scalar)
  | unbounded
deriving DecidableEq, Repr

/-- The margin is not the unbounded sentinel and is nonnegative. -/
def EScalar.Nonneg : EScalar → Prop
  | .fin q => 0 ≤ q
  | .unbounded => True

instance (e : EScalar) : Decidable e.Nonneg :=
  match e with
  | .fin q => inferInstanceAs (Decidable (0 ≤ q))
  | .unbounded => .isTrue trivial

/-- The kind of a rigid body (`RigidBody` in the source). -/
inductive RBKind where
  | staticBody
  | kinematic
  | dynamic
deriving DecidableEq, Repr

/-- `RigidBody::is_static`. -/
def RBKind.is_static : RBKind → Bool
  | .staticBody => true
  | _ => false

/-- `RigidBody::is_dynamic`. -/
def RBKind.is_dynamic : RBKind → Bool
  | .dynamic => true
  | _ => false

/-- A single contact point.  `feature_id` is the identifier used for
cross-frame matching (absent when the geometry backend cannot provide one);
`position` is the (1-D modelled) world position used for proximity matching;
the two impulses are the accumulated solver impulses carried for warm starting. -/
structure ContactPoint where
  feature_id : Option Nat
  position : Scalar
  normal_impulse : Scalar
  tangent_impulse : Scalar
deriving DecidableEq, Repr

/-- A contact manifold: contact points plus the surface properties stamped on
it by `compute_contact_pair` (friction, restitution, tangent velocity). -/
structure ContactManifold where
  points : List ContactPoint
  friction : Scalar
  restitution : Scalar
  tangent_velocity : Scalar
deriving DecidableEq, Repr

/-- The `Contacts` struct: one registry entry for an unordered collider pair. -/
structure Contacts where
  entity1 : Entity
  entity2 : Entity
  body_entity1 : Option Entity
  body_entity2 : Option Entity
  during_current_frame : Bool
  during_previous_frame : Bool
  manifolds : List ContactManifold
  is_sensor : Bool
deriving DecidableEq, Repr

/-- The fields of `ColliderQueryItem` that the narrow phase reads. -/
structure ColliderData where
  entity : Entity
  rigid_body : Option Entity
  collision_margin : Option Scalar
  speculative_margin : Option Scalar
  is_sensor : Bool
  is_rb : Bool
  modify_contacts_hook : Bool
deriving DecidableEq, Repr

/-- The body-query bundle read by `handle_entity_pair`: the body's linear
velocity and its optional `CollisionMargin` / `SpeculativeMargin` components. -/
structure BodyBundle where
  linear_velocity : Scalar
  collision_margin : Option Scalar
  speculative_margin : Option Scalar
deriving DecidableEq, Repr

/-- The body fields read by `generate_constraints`. -/
structure RigidBodyData where
  entity : Entity
  rb : RBKind
  is_sleeping : Bool
  is_sensor : Bool
deriving DecidableEq, Repr

/-- Deferred commands queued through the command buffer. -/
inductive PhysicsCommand where
  | wakeUpBody (e : Entity)
deriving DecidableEq, Repr

/-- The narrow-phase configuration, with the cached margins already scaled by
the physics length unit (the source caches `length_unit * config.value` in
`Local`s). -/
structure NarrowPhaseCfg where
  default_speculative_margin : EScalar
  contact_tolerance : Scalar
  match_contacts : Bool
deriving DecidableEq, Repr

/-- The linear velocity used by `handle_entity_pair`: the body's velocity, or
zero when the collider has no body bundle (`unwrap_or_default`). -/
def linVel (b : Option BodyBundle) : Scalar :=
  (b.map BodyBundle.linear_velocity).getD 0

/-- Collision-margin resolution from `handle_entity_pair`:
`collider.collision_margin.or(rb_collision_margin).map_or(0.0, |margin| margin.0)`. -/
def resolveCollisionMargin (collider : Option Scalar) (rb : Option Scalar) : Scalar :=
  match collider with
  | some m => m
  | none =>
    match rb with
    | some m => m
    | none => 0

/-- The `collision_margin_sum` of `handle_entity_pair`. -/
def collisionMarginSum (c1 c2 : ColliderData) (b1 b2 : Option BodyBundle) : Scalar :=
  resolveCollisionMargin c1.collision_margin (b1.bind BodyBundle.collision_margin)
    + resolveCollisionMargin c2.collision_margin (b2.bind BodyBundle.collision_margin)

/-- Speculative-margin resolution from `handle_entity_pair`: the collider's own
margin if specified, else the body's, else the global default
(`collider.speculative_margin.map_or(rb_margin.map(..), Some).unwrap_or(default)`). -/
def resolveSpeculativeMargin (collider : Option Scalar) (rb : Option Scalar)
    (dflt : EScalar) : EScalar :=
  match collider with
  | some m => .fin m
  | none =>
    match rb with
    | some m => .fin m
    | none => dflt

/-- `Vector::clamp_length_max` (glam): if `length_squared > max * max`, rescale
to length `max`, else return the vector unchanged.  In the 1-D model the
rescaled vector is `max * (v / |v|)`. -/
def clampLengthMax (v maxLen : Scalar) : Scalar :=
  if maxLen * maxLen < v * v then maxLen * (v / |v|) else v

/-- The velocity clamp of `handle_entity_pair`: clamp the velocity length to
`margin * delta_secs.recip()` when the resolved margin is below `Scalar::MAX`. -/
def clampToSpeculativeMargin (dt : Scalar) (margin : EScalar) (v : Scalar) : Scalar :=
  match margin with
  | .fin m => clampLengthMax v (m * dt⁻¹)
  | .unbounded => v

/-- The `effective_speculative_margin` of `handle_entity_pair`:
`delta_secs * (lin_vel1 - lin_vel2).length()` after clamping both velocities. -/
def effectiveSpeculativeMargin (dt : Scalar) (m1 m2 : EScalar) (v1 v2 : Scalar) : Scalar :=
  dt * |clampToSpeculativeMargin dt m1 v1 - clampToSpeculativeMargin dt m2 v2|

/-- The `max_contact_distance` computed by `handle_entity_pair` and passed to
`compute_contact_pair` (and from there to manifold generation):
`effective_speculative_margin.max(contact_tolerance) + collision_margin_sum`. -/
def maxContactDistance (cfg : NarrowPhaseCfg) (dt : Scalar) (c1 c2 : ColliderData)
    (b1 b2 : Option BodyBundle) : Scalar :=
  let m1 := resolveSpeculativeMargin c1.speculative_margin
    (b1.bind BodyBundle.speculative_margin) cfg.default_speculative_margin
  let m2 := resolveSpeculativeMargin c2.speculative_margin
    (b2.bind BodyBundle.speculative_margin) cfg.default_speculative_margin
  max (effectiveSpeculativeMargin dt m1 m2 (linVel b1) (linVel b2)) cfg.contact_tolerance
    + collisionMarginSum c1 c2 b1 b2

/-- The magnitude clamp as the specification words it: clamp the velocity
magnitude to `margin / delta_time`. -/
def specClampMagnitude (v bound : Scalar) : Scalar :=
  if |v| ≤ bound then v else bound * (v / |v|)

/-- A side's clamped velocity as the specification words it: clamped in
magnitude to `margin / delta_time` whenever the margin is finite, left
unclamped otherwise. -/
def specClampedVelocity (dt : Scalar) (margin : EScalar) (v : Scalar) : Scalar :=
  match margin with
  | .fin m => specClampMagnitude v (m / dt)
  | .unbounded => v

/-- The maximum contact distance as the specification words it: each side's
speculative margin resolves as collider-override, else body-override, else the
global default; each side's velocity is clamped; the effective margin is
`delta_time * |v1_clamped - v2_clamped|`; the result is
`max(effective_margin, contact_tolerance) + collision_margin_sum` with the
collision margin resolving as collider override, else body override, else 0. -/
def specMaxContactDistance (cfg : NarrowPhaseCfg) (dt : Scalar) (c1 c2 : ColliderData)
    (b1 b2 : Option BodyBundle) : Scalar :=
  let sm1 := ((c1.speculative_margin.map EScalar.fin).getD
    (((b1.bind BodyBundle.speculative_margin).map EScalar.fin).getD
      cfg.default_speculative_margin))
  let sm2 := ((c2.speculative_margin.map EScalar.fin).getD
    (((b2.bind BodyBundle.speculative_margin).map EScalar.fin).getD
      cfg.default_speculative_margin))
  let v1 := specClampedVelocity dt sm1 (linVel b1)
  let v2 := specClampedVelocity dt sm2 (linVel b2)
  let effectiveMargin := dt * |v1 - v2|
  let staticMargin1 := c1.collision_margin.getD ((b1.bind BodyBundle.collision_margin).getD 0)
  let staticMargin2 := c2.collision_margin.getD ((b2.bind BodyBundle.collision_margin).getD 0)
  max effectiveMargin cfg.contact_tolerance + (staticMargin1 + staticMargin2)

/-- The `Collisions` registry, modelled as an association list from the
canonical entity pair to the `Contacts` entry. -/
abbrev Registry := List ((Entity × Entity) × Contacts)

/-- Lookup of a registry entry by key (`Collisions::get_internal().get(&key)`). -/
def getPair : Registry → Entity × Entity → Option Contacts
  | [], _ => none
  | kv :: rest, k => if kv.1 = k then some kv.2 else getPair rest k

/-- Insert-or-update of a registry entry at a key (map semantics). -/
def setPair : Registry → Entity × Entity → Contacts → Registry
  | [], k, c => [(k, c)]
  | kv :: rest, k, c => if kv.1 = k then (k, c) :: rest else kv :: setPair rest k c

/-- The canonical registry key of an unordered entity pair: the smaller handle
first. -/
def canonicalKey (e1 e2 : Entity) : Entity × Entity :=
  if e1 < e2 then (e1, e2) else (e2, e1)

/-- Modelled from the spec: `Collisions::insert_collision_pair` is not under
`src/`; per the specification the registry is "a mapping from canonical
(entity1, entity2) key to Contacts" with a unique key per unordered pair, so
insertion stores the entry under the canonical key. -/
def insertCollisionPair (reg : Registry) (c : Contacts) : Registry :=
  setPair reg (canonicalKey c.entity1 c.entity2) c

/-- The previous-frame lookup of `compute_contact_pair`: order the two entities
before querying the registry (`if collider1.entity < collider2.entity { .. }`). -/
def previousContactsLookup (reg : Registry) (e1 e2 : Entity) : Option Contacts :=
  if e1 < e2 then getPair reg (e1, e2) else getPair reg (e2, e1)

/-- Modelled from the spec: the nearest-position fallback of contact matching.
Among the previous points within the distance threshold, pick the nearest. -/
def nearestWithin (prevPoints : List ContactPoint) (threshold pos : Scalar) :
    Option ContactPoint :=
  (prevPoints.filter (fun q => decide (|q.position - pos| ≤ threshold))).foldl
    (fun best q =>
      match best with
      | none => some q
      | some b => if |q.position - pos| < |b.position - pos| then some q else some b)
    none

/-- Modelled from the spec: `ContactManifold::match_contacts` is not under
`src/`.  Per §4.4 of the specification, a new point is matched against the
previous points by feature id first; if the feature id is unavailable, by
nearest position within the distance threshold.  A matched point copies the
previous point's accumulated normal/tangent impulses; an unmatched point is
left as produced (zero impulses). -/
def matchPoint (prevPoints : List ContactPoint) (threshold : Scalar)
    (p : ContactPoint) : ContactPoint :=
  match p.feature_id with
  | some i =>
    match prevPoints.find? (fun q => decide (q.feature_id = some i)) with
    | some q => { p with normal_impulse := q.normal_impulse,
                         tangent_impulse := q.tangent_impulse }
    | none => p
  | none =>
    match nearestWithin prevPoints threshold p.position with
    | some q => { p with normal_impulse := q.normal_impulse,
                         tangent_impulse := q.tangent_impulse }
    | none => p

/-- Modelled from the spec: matching one manifold against one previous
manifold's points (see `matchPoint`). -/
def ContactManifold.matchContacts (m : ContactManifold)
    (prevPoints : List ContactPoint) (threshold : Scalar) : ContactManifold :=
  { m with points := m.points.map (matchPoint prevPoints threshold) }

/-- The warm-starting block of `compute_contact_pair`: when the new manifold
count is at most 4 and `config.match_contacts` is set, match each new manifold
against the points of each manifold of the previous entry, with distance
threshold `0.1 * length_unit`. -/
def warmStartMatch (matchFlag : Bool) (lengthUnit : Scalar)
    (previous : Option Contacts) (c : Contacts) : Contacts :=
  if c.manifolds.length ≤ 4 ∧ matchFlag = true then
    match previous with
    | some prev =>
      { c with manifolds := c.manifolds.map (fun m =>
          prev.manifolds.foldl
            (fun m' pm => m'.matchContacts pm.points (1 / 10 * lengthUnit)) m) }
    | none => c
  else c

/-- Stamping of the initial surface properties onto the freshly generated
manifolds (`manifolds.iter_mut().for_each(..)` in `compute_contact_pair`). -/
def stampManifolds (friction restitution : Scalar)
    (ms : List ContactManifold) : List ContactManifold :=
  ms.map (fun m =>
    { m with friction := friction, restitution := restitution, tangent_velocity := 0 })

/-- The `Contacts` value constructed by `compute_contact_pair` before the
collision hooks run. -/
def buildContacts (collider1 collider2 : ColliderData) (previous : Option Contacts)
    (manifolds : List ContactManifold) : Contacts :=
  { entity1 := collider1.entity
    entity2 := collider2.entity
    body_entity1 := collider1.rigid_body
    body_entity2 := collider2.rigid_body
    during_current_frame := true
    during_previous_frame := previous.elim false Contacts.during_previous_frame
    manifolds := manifolds
    is_sensor := collider1.is_sensor || collider2.is_sensor
      || !collider1.is_rb || !collider2.is_rb }

/-- `NarrowPhase::compute_contact_pair`.  The geometry backend (the shape
contact oracle) is abstracted as the list of manifolds it produced for the
pair at the given maximum distance; the collision hook is an arbitrary
function returning the keep flag and the (possibly mutated) contacts. -/
def computeContactPair (cfg : NarrowPhaseCfg) (lengthUnit : Scalar) (reg : Registry)
    (collider1 collider2 : ColliderData) (friction restitution : Scalar)
    (oracleManifolds : List ContactManifold)
    (hook : Contacts → Bool × Contacts) : Option Contacts :=
  if oracleManifolds.isEmpty then none
  else
    let manifolds := stampManifolds friction restitution oracleManifolds
    let previous := previousContactsLookup reg collider1.entity collider2.entity
    let contacts := buildContacts collider1 collider2 previous manifolds
    let afterHook : Option Contacts :=
      if collider1.modify_contacts_hook || collider2.modify_contacts_hook then
        match hook contacts with
        | (true, c') => some c'
        | (false, _) => none
      else some contacts
    afterHook.bind (fun c =>
      if c.manifolds.isEmpty then none
      else some (warmStartMatch cfg.match_contacts lengthUnit previous c))

/-- One broad-phase candidate pair together with everything the narrow phase
reads for it: the two collider views, the combined friction/restitution, the
oracle's manifolds, and the hook. -/
structure PairInput where
  collider1 : ColliderData
  collider2 : ColliderData
  friction : Scalar
  restitution : Scalar
  manifolds : List ContactManifold
  hook : Contacts → Bool × Contacts

/-- Processing of one candidate pair inside the collection loop of
`NarrowPhase::update`: insert the produced `Contacts`, if any. -/
def collectStep (cfg : NarrowPhaseCfg) (lengthUnit : Scalar)
    (r : Registry) (pi : PairInput) : Registry :=
  match computeContactPair cfg lengthUnit r pi.collider1 pi.collider2
      pi.friction pi.restitution pi.manifolds pi.hook with
  | some c => insertCollisionPair r c
  | none => r

/-- The collection pass of `NarrowPhase::update`: process each candidate pair
in order and insert the produced `Contacts` into the registry. -/
def collectCollisions (cfg : NarrowPhaseCfg) (lengthUnit : Scalar)
    (pairs : List PairInput) (reg : Registry) : Registry :=
  pairs.foldl (collectStep cfg lengthUnit) reg

/-- The per-entry body of `reset_collision_states`.  `query e` returns the
body's `Option RigidBody` kind and `Has Sleeping` flag, or `none` when the
entity no longer exists. -/
def resetEntry (query : Entity → Option (Option RBKind × Bool)) (c : Contacts) : Contacts :=
  match query (c.body_entity1.getD c.entity1), query (c.body_entity2.getD c.entity2) with
  | some (rb1, sleeping1), some (rb2, sleeping2) =>
    let active1 := !(rb1.elim false RBKind.is_static) && !sleeping1
    let active2 := !(rb2.elim false RBKind.is_static) && !sleeping2
    if active1 || active2 then
      { c with during_previous_frame := true, during_current_frame := false }
    else
      { c with during_previous_frame := true, during_current_frame := true }
  | _, _ =>
    { c with during_previous_frame := true, during_current_frame := false }

/-- The `reset_collision_states` system: apply `resetEntry` to every entry. -/
def resetCollisionStates (query : Entity → Option (Option RBKind × Bool))
    (reg : Registry) : Registry :=
  reg.map (fun kv => (kv.1, resetEntry query kv.2))

/-- The `remove_ended_collisions` system:
`collisions.retain(|contacts| contacts.during_current_frame)`. -/
def removeEndedCollisions (reg : Registry) : Registry :=
  reg.filter (fun kv => kv.2.during_current_frame)

/-- The registry as the contact-reporting stage observes it: after the
pre-collection reset and the collection pass, before eviction
(`remove_ended_collisions` is scheduled after `PhysicsStepSet::ReportContacts`). -/
def registryAtReporting (query : Entity → Option (Option RBKind × Bool))
    (cfg : NarrowPhaseCfg) (lengthUnit : Scalar) (pairs : List PairInput)
    (reg : Registry) : Registry :=
  collectCollisions cfg lengthUnit pairs (resetCollisionStates query reg)

/-- One full step of registry lifecycle management, in schedule order:
reset states, collect collisions, (report contacts), evict ended entries. -/
def narrowPhaseStep (query : Entity → Option (Option RBKind × Bool))
    (cfg : NarrowPhaseCfg) (lengthUnit : Scalar) (pairs : List PairInput)
    (reg : Registry) : Registry :=
  removeEndedCollisions (registryAtReporting query cfg lengthUnit pairs reg)

/-- A generated contact constraint.  The solver payload is abstracted; only
the point list matters for the narrow phase's own logic (constraints with no
points are dropped). -/
structure ContactConstraint where
  manifold_index : Nat
  points : List ContactPoint
deriving DecidableEq, Repr

/-- The contact softness coefficients resource (abstracted to scalars). -/
structure SoftnessCoefficients where
  non_dynamic : Scalar
  dynamic : Scalar
deriving DecidableEq, Repr

/-- `NarrowPhase::generate_constraints` for one registry entry.
`conGen i manifold softness` abstracts `ContactConstraint::generate` (whose
implementation lives in the solver, outside this file tree).  Returns the
constraints pushed for this entry together with the commands queued through
the command buffer. -/
def generateConstraints (conGen : Nat → ContactManifold → Scalar → ContactConstraint)
    (soft : SoftnessCoefficients) (contacts : Contacts)
    (body1 body2 : RigidBodyData) (collider1 collider2 : ColliderData) :
    List ContactConstraint × List PhysicsCommand :=
  let inactive1 := body1.rb.is_static || body1.is_sleeping
  let inactive2 := body2.rb.is_static || body2.is_sleeping
  if (inactive1 && inactive2) || (collider1.is_sensor || body1.is_sensor)
      || (collider2.is_sensor || body2.is_sensor) then
    ([], [])
  else
    let wake : List PhysicsCommand :=
      if body1.is_sleeping then [PhysicsCommand.wakeUpBody body1.entity]
      else if body2.is_sleeping then [PhysicsCommand.wakeUpBody body2.entity]
      else []
    let softness := if !body1.rb.is_dynamic || !body2.rb.is_dynamic then
      soft.non_dynamic else soft.dynamic
    let constraints := (contacts.manifolds.enum.map
        (fun im => conGen im.1 im.2 softness)).filter
      (fun con => !con.points.isEmpty)
    (constraints, wake)

/-- The registry keys are pairwise distinct (map semantics of `Collisions`). -/
def keysNodup (reg : Registry) : Prop :=
  (reg.map Prod.fst).Nodup

instance (reg : Registry) : Decidable (keysNodup reg) :=
  inferInstanceAs (Decidable (List.Nodup (reg.map Prod.fst)))

/-- Sample constraint generator used by concrete witnesses. -/
def conGenSample : Nat → ContactManifold → Scalar → ContactConstraint :=
  fun i m _ => ⟨i, m.points⟩

/-- Sample softness coefficients used by concrete witnesses. -/
def softSample : SoftnessCoefficients := ⟨1, 2⟩

/-- Sample configuration: unbounded default speculative margin, small contact
tolerance, matching enabled (the source defaults). -/
def cfgSample : NarrowPhaseCfg := ⟨.unbounded, 1 / 200, true⟩

/-- Sample contact point used by concrete witnesses. -/
def samplePoint : ContactPoint := ⟨some 0, 0, 0, 0⟩

/-- Sample manifold used by concrete witnesses. -/
def sampleManifold : ContactManifold := ⟨[samplePoint], 0, 0, 0⟩

/-- Sample collider on entity 1, body 10, no overrides, no hooks. -/
def colA : ColliderData := ⟨1, some 10, none, none, false, true, false⟩

/-- Sample collider on entity 2, body 20, no overrides, no hooks. -/
def colB : ColliderData := ⟨2, some 20, none, none, false, true, false⟩

/-- Sample collider on entity 1 with the modify-contacts hook enabled. -/
def colHookA : ColliderData := ⟨1, some 10, none, none, false, true, true⟩

/-- Sample collider with a collision-margin override of 1/4 and a speculative
margin override of 2. -/
def colMarginA : ColliderData := ⟨1, some 10, some (1 / 4), some 2, false, true, false⟩

/-- Sample collider with a speculative margin override of 3. -/
def colMarginB : ColliderData := ⟨2, some 20, none, some 3, false, true, false⟩

/-- Sample body bundle moving at speed 5. -/
def bodyFast : BodyBundle := ⟨5, none, none⟩

/-- Sample body bundle moving at speed 1 with a collision margin of 1/2. -/
def bodySlow : BodyBundle := ⟨1, some (1 / 2), none⟩

/-- Hook that keeps every pair unchanged. -/
def hookKeepAll : Contacts → Bool × Contacts := fun c => (true, c)

/-- Hook that rejects every pair. -/
def hookRejectAll : Contacts → Bool × Contacts := fun c => (false, c)

/-- Hook that keeps the pair but empties its manifold list. -/
def hookClearManifolds : Contacts → Bool × Contacts :=
  fun c => (true, { c with manifolds := [] })

/-- Hook that keeps the pair but clears its `during_current_frame` flag. -/
def hookFlipCurrent : Contacts → Bool × Contacts :=
  fun c => (true, { c with during_current_frame := false })

/-- A live registry entry for pair (1, 2) with bodies 10 and 20. -/
def contactsLive : Contacts := ⟨1, 2, some 10, some 20, true, true, [sampleManifold], false⟩

/-- The same pair registered in the reversed orientation. -/
def contactsSwapped : Contacts := ⟨2, 1, some 20, some 10, true, true, [sampleManifold], false⟩

/-- A registry holding only `contactsLive`. -/
def regLive : Registry := [((1, 2), contactsLive)]

/-- Sample body query: body 10 is dynamic and awake, body 20 is static,
other entities do not exist. -/
def queryActive : Entity → Option (Option RBKind × Bool) := fun e =>
  if e = 10 then some (some .dynamic, false)
  else if e = 20 then some (some .staticBody, false)
  else none

/-- A candidate pair whose oracle produced no manifolds this step. -/
def pairStops : PairInput := ⟨colA, colB, 0, 0, [], hookKeepAll⟩

/-- A candidate pair with the modify-contacts capability whose hook rejects
the pair this step. -/
def pairReject : PairInput := ⟨colHookA, colB, 2, 3, [sampleManifold], hookRejectAll⟩

/-- An awake dynamic body on entity 10. -/
def bodyAwakeA : RigidBodyData := ⟨10, .dynamic, false, false⟩

/-- A sleeping dynamic body on entity 10. -/
def bodySleeping : RigidBodyData := ⟨10, .dynamic, true, false⟩

/-- An awake dynamic body on entity 20. -/
def bodyAwake : RigidBodyData := ⟨20, .dynamic, false, false⟩

/-- A static body on entity 10. -/
def bodyStaticA : RigidBodyData := ⟨10, .staticBody, false, false⟩

/-- A static body on entity 20. -/
def bodyStaticB : RigidBodyData := ⟨20, .staticBody, false, false⟩

/-- The concrete `Contacts` value returned by `computeContactPair` in the
hook counterexample below. -/
def hookFlipResult : Contacts :=
  ⟨1, 2, some 10, some 20, false, false, [⟨[samplePoint], 2, 3, 0⟩], false⟩

/-- The concrete `Contacts` value returned by `computeContactPair` in the
hook-free witness run below. -/
def noHookResult : Contacts :=
  ⟨1, 2, some 10, some 20, true, true, [⟨[samplePoint], 2, 3, 0⟩], false⟩

theorem getPair_setPair_self (reg : Registry) (k : Entity × Entity) (c : Contacts) :
    getPair (setPair reg k c) k = some c := by
  induction reg with
  | nil => simp [setPair, getPair]
  | cons kv rest ih =>
    by_cases h : kv.1 = k
    · simp [setPair, h, getPair]
    · simp [setPair, h, getPair, ih]

theorem getPair_setPair_ne (reg : Registry) (k k' : Entity × Entity) (c : Contacts)
    (h : k ≠ k') : getPair (setPair reg k c) k' = getPair reg k' := by
  induction reg with
  | nil => simp [setPair, getPair, h]
  | cons kv rest ih =>
    by_cases hk : kv.1 = k
    · simp [setPair, hk, getPair, h]
    · simp only [setPair, if_neg hk, getPair]
      by_cases hk' : kv.1 = k'
      · simp [hk']
      · simp [hk', ih]

theorem getPair_eq_none_of_not_mem (reg : Registry) (k : Entity × Entity)
    (h : k ∉ reg.map Prod.fst) : getPair reg k = none := by
  induction reg with
  | nil => rfl
  | cons kv rest ih =>
    simp only [List.map_cons, List.mem_cons, not_or] at h
    rw [getPair, if_neg (fun he => h.1 he.symm)]
    exact ih h.2

theorem mem_keys_setPair (reg : Registry) (k k' : Entity × Entity) (c : Contacts)
    (h : k' ∈ (setPair reg k c).map Prod.fst) : k' = k ∨ k' ∈ reg.map Prod.fst := by
  induction reg with
  | nil => simpa [setPair] using h
  | cons kv rest ih =>
    by_cases hk : kv.1 = k
    · simp only [setPair, if_pos hk, List.map_cons, List.mem_cons] at h ⊢
      rcases h with h | h
      · exact Or.inl h
      · exact Or.inr (Or.inr h)
    · simp only [setPair, if_neg hk, List.map_cons, List.mem_cons] at h ⊢
      rcases h with h | h
      · exact Or.inr (Or.inl h)
      · rcases ih h with h | h
        · exact Or.inl h
        · exact Or.inr (Or.inr h)

theorem keysNodup_setPair (reg : Registry) (k : Entity × Entity) (c : Contacts)
    (h : keysNodup reg) : keysNodup (setPair reg k c) := by
  induction reg with
  | nil => simp [keysNodup, setPair]
  | cons kv rest ih =>
    rw [keysNodup, List.map_cons, List.nodup_cons] at h
    by_cases hk : kv.1 = k
    · rw [keysNodup, setPair, if_pos hk, List.map_cons, List.nodup_cons]
      exact ⟨hk ▸ h.1, h.2⟩
    · rw [keysNodup, setPair, if_neg hk, List.map_cons, List.nodup_cons]
      refine ⟨fun hmem => ?_, ih h.2⟩
      rcases mem_keys_setPair rest k kv.1 c hmem with he | he
      · exact hk he
      · exact h.1 he

theorem keys_resetCollisionStates (query : Entity → Option (Option RBKind × Bool))
    (reg : Registry) :
    (resetCollisionStates query reg).map Prod.fst = reg.map Prod.fst := by
  induction reg with
  | nil => rfl
  | cons kv rest ih => simp [resetCollisionStates, ih]

theorem keysNodup_resetCollisionStates (query : Entity → Option (Option RBKind × Bool))
    (reg : Registry) (h : keysNodup reg) : keysNodup (resetCollisionStates query reg) := by
  rw [keysNodup, keys_resetCollisionStates]
  exact h

theorem getPair_resetCollisionStates (query : Entity → Option (Option RBKind × Bool))
    (reg : Registry) (k : Entity × Entity) :
    getPair (resetCollisionStates query reg) k = (getPair reg k).map (resetEntry query) := by
  induction reg with
  | nil => rfl
  | cons kv rest ih =>
    by_cases hk : kv.1 = k
    · simp [resetCollisionStates, getPair, hk]
    · simpa [resetCollisionStates, getPair, hk] using ih

theorem keysNodup_collectStep (cfg : NarrowPhaseCfg) (lengthUnit : Scalar)
    (reg : Registry) (pi : PairInput) (h : keysNodup reg) :
    keysNodup (collectStep cfg lengthUnit reg pi) := by
  rw [collectStep]
  rcases computeContactPair cfg lengthUnit reg pi.collider1 pi.collider2
      pi.friction pi.restitution pi.manifolds pi.hook with _ | c
  · exact h
  · exact keysNodup_setPair reg _ c h

theorem keysNodup_collectCollisions (cfg : NarrowPhaseCfg) (lengthUnit : Scalar)
    (pairs : List PairInput) (reg : Registry) (h : keysNodup reg) :
    keysNodup (collectCollisions cfg lengthUnit pairs reg) := by
  induction pairs generalizing reg with
  | nil => exact h
  | cons pi rest ih =>
    rw [collectCollisions, List.foldl_cons]
    exact ih _ (keysNodup_collectStep cfg lengthUnit reg pi h)

theorem getPair_collectStep_of_no_insert (cfg : NarrowPhaseCfg) (lengthUnit : Scalar)
    (reg : Registry) (pi : PairInput) (k : Entity × Entity)
    (h : ∀ c' : Contacts,
      computeContactPair cfg lengthUnit reg pi.collider1 pi.collider2 pi.friction
        pi.restitution pi.manifolds pi.hook = some c' →
      canonicalKey c'.entity1 c'.entity2 ≠ k) :
    getPair (collectStep cfg lengthUnit reg pi) k = getPair reg k := by
  rw [collectStep]
  rcases hc : computeContactPair cfg lengthUnit reg pi.collider1 pi.collider2
      pi.friction pi.restitution pi.manifolds pi.hook with _ | c
  · rfl
  · exact getPair_setPair_ne reg _ k c (h c hc)

theorem getPair_collectCollisions_of_no_insert (cfg : NarrowPhaseCfg)
    (lengthUnit : Scalar) (pairs : List PairInput) (reg : Registry) (k : Entity × Entity)
    (h : ∀ pi ∈ pairs, ∀ (r : Registry) (c' : Contacts),
      computeContactPair cfg lengthUnit r pi.collider1 pi.collider2 pi.friction
        pi.restitution pi.manifolds pi.hook = some c' →
      canonicalKey c'.entity1 c'.entity2 ≠ k) :
    getPair (collectCollisions cfg lengthUnit pairs reg) k = getPair reg k := by
  induction pairs generalizing reg with
  | nil => rfl
  | cons pi rest ih =>
    rw [collectCollisions, List.foldl_cons]
    rw [show List.foldl (collectStep cfg lengthUnit) (collectStep cfg lengthUnit reg pi) rest
      = collectCollisions cfg lengthUnit rest (collectStep cfg lengthUnit reg pi) from rfl]
    rw [ih _ (fun pi' hpi' => h pi' (List.mem_cons_of_mem pi hpi'))]
    exact getPair_collectStep_of_no_insert cfg lengthUnit reg pi k
      (fun c' => h pi (List.mem_cons_self pi rest) reg c')

theorem getPair_filter_of_none (p : (Entity × Entity) × Contacts → Bool)
    (reg : Registry) (k : Entity × Entity) (h : getPair reg k = none) :
    getPair (reg.filter p) k = none := by
  induction reg with
  | nil => rfl
  | cons kv rest ih =>
    rw [getPair] at h
    by_cases hk : kv.1 = k
    · simp [hk] at h
    · rw [if_neg hk] at h
      rw [List.filter_cons]
      by_cases hp : p kv
      · simp only [hp, if_true, getPair, if_neg hk]
        exact ih h
      · simp only [hp, Bool.false_eq_true, if_false]
        exact ih h

theorem getPair_removeEndedCollisions (reg : Registry) (k : Entity × Entity)
    (c : Contacts) (hnd : keysNodup reg) (h : getPair reg k = some c) :
    getPair (removeEndedCollisions reg) k
      = if c.during_current_frame = true then some c else none := by
  induction reg with
  | nil => simp [getPair] at h
  | cons kv rest ih =>
    rw [keysNodup, List.map_cons, List.nodup_cons] at hnd
    rw [getPair] at h
    by_cases hk : kv.1 = k
    · rw [if_pos hk] at h
      injection h with h
      subst h
      rw [removeEndedCollisions, List.filter_cons]
      by_cases hcur : kv.2.during_current_frame
      · simp only [hcur, if_true, getPair, if_pos hk]
      · simp only [hcur, Bool.false_eq_true, if_false]
        exact getPair_filter_of_none _ rest k
          (getPair_eq_none_of_not_mem rest k (hk ▸ hnd.1))
    · rw [if_neg hk] at h
      rw [removeEndedCollisions, List.filter_cons]
      by_cases hp : kv.2.during_current_frame
      · simp only [hp, if_true, getPair, if_neg hk]
        exact ih hnd.2 h
      · simp only [hp, Bool.false_eq_true, if_false]
        exact ih hnd.2 h

theorem warmStartMatch_during_current_frame (flag : Bool) (lengthUnit : Scalar)
    (previous : Option Contacts) (c : Contacts) :
    (warmStartMatch flag lengthUnit previous c).during_current_frame
      = c.during_current_frame := by
  unfold warmStartMatch
  split
  · cases previous <;> rfl
  · rfl

theorem warmStartMatch_during_previous_frame (flag : Bool) (lengthUnit : Scalar)
    (previous : Option Contacts) (c : Contacts) :
    (warmStartMatch flag lengthUnit previous c).during_previous_frame
      = c.during_previous_frame := by
  unfold warmStartMatch
  split
  · cases previous <;> rfl
  · rfl

theorem mul_self_lt_iff_not_abs_le (v b : Scalar) (hb : 0 ≤ b) :
    b * b < v * v ↔ ¬ |v| ≤ b := by
  constructor
  · intro h hle
    have h2 : |v| * |v| ≤ b * b := mul_le_mul hle hle (abs_nonneg v) hb
    rw [abs_mul_abs_self] at h2
    linarith
  · intro h
    push_neg at h
    have h2 := mul_self_lt_mul_self hb h
    rwa [abs_mul_abs_self] at h2

theorem clampLengthMax_eq_spec (v b : Scalar) (hb : 0 ≤ b) :
    clampLengthMax v b = specClampMagnitude v b := by
  unfold clampLengthMax specClampMagnitude
  by_cases h : |v| ≤ b
  · rw [if_neg (fun hc => ((mul_self_lt_iff_not_abs_le v b hb).mp hc) h), if_pos h]
  · rw [if_pos ((mul_self_lt_iff_not_abs_le v b hb).mpr h), if_neg h]

theorem abs_clampLengthMax_le (v b : Scalar) (hb : 0 ≤ b) :
    |clampLengthMax v b| ≤ b := by
  unfold clampLengthMax
  split
  case isTrue h =>
    have hv : v ≠ 0 := by
      intro h0
      rw [h0] at h
      nlinarith
    rw [abs_mul, abs_div, abs_abs, div_self (abs_ne_zero.mpr hv), mul_one, abs_of_nonneg hb]
  case isFalse h =>
    push_neg at h
    by_contra hlt
    push_neg at hlt
    have h2 := mul_self_lt_mul_self hb hlt
    rw [abs_mul_abs_self] at h2
    linarith

theorem clampToSpeculativeMargin_eq_spec (dt : Scalar) (m : EScalar) (v : Scalar)
    (hdt : 0 < dt) (hm : m.Nonneg) :
    clampToSpeculativeMargin dt m v = specClampedVelocity dt m v := by
  cases m with
  | unbounded => rfl
  | fin q =>
    have hq : 0 ≤ q := hm
    have hb : 0 ≤ q * dt⁻¹ := mul_nonneg hq (inv_nonneg.mpr hdt.le)
    show clampLengthMax v (q * dt⁻¹) = specClampMagnitude v (q / dt)
    rw [clampLengthMax_eq_spec v _ hb, div_eq_mul_inv]

theorem resolveSpeculativeMargin_eq_getD (c rb : Option Scalar) (d : EScalar) :
    resolveSpeculativeMargin c rb d
      = (c.map EScalar.fin).getD ((rb.map EScalar.fin).getD d) := by
  cases c <;> cases rb <;> rfl

theorem resolveCollisionMargin_eq_getD (c rb : Option Scalar) :
    resolveCollisionMargin c rb = c.getD (rb.getD 0) := by
  cases c <;> cases rb <;> rfl

theorem nearestFoldStep_result (pos : Scalar) (l : List ContactPoint)
    (acc : Option ContactPoint) (q : ContactPoint)
    (h : l.foldl (fun best r =>
        match best with
        | none => some r
        | some b => if |r.position - pos| < |b.position - pos| then some r else some b)
      acc = some q) :
    q ∈ l ∨ acc = some q := by
  induction l generalizing acc with
  | nil => exact Or.inr h
  | cons x xs ih =>
    rw [List.foldl_cons] at h
    rcases ih _ h with hq | hq
    · exact Or.inl (List.mem_cons_of_mem x hq)
    · rcases acc with _ | b
      · simp only at hq
        injection hq with hq
        exact Or.inl (hq ▸ List.mem_cons_self x xs)
      · simp only at hq
        split at hq
        · injection hq with hq
          exact Or.inl (hq ▸ List.mem_cons_self x xs)
        · exact Or.inr hq

theorem nearestWithin_mem (prevPoints : List ContactPoint) (threshold pos : Scalar)
    (q : ContactPoint) (h : nearestWithin prevPoints threshold pos = some q) :
    q ∈ prevPoints ∧ |q.position - pos| ≤ threshold := by
  unfold nearestWithin at h
  rcases nearestFoldStep_result pos _ none q h with hq | hq
  · have hq2 := List.mem_filter.mp hq
    exact ⟨hq2.1, of_decide_eq_true hq2.2⟩
  · exact absurd hq (by simp)

theorem effectiveSpeculativeMargin_le (dt m1 m2 v1 v2 : Scalar) (hdt : 0 < dt)
    (hm1 : 0 ≤ m1) (hm2 : 0 ≤ m2) :
    effectiveSpeculativeMargin dt (.fin m1) (.fin m2) v1 v2 ≤ m1 + m2 := by
  have hb1 : 0 ≤ m1 * dt⁻¹ := mul_nonneg hm1 (inv_nonneg.mpr hdt.le)
  have hb2 : 0 ≤ m2 * dt⁻¹ := mul_nonneg hm2 (inv_nonneg.mpr hdt.le)
  have hc1 := abs_clampLengthMax_le v1 (m1 * dt⁻¹) hb1
  have hc2 := abs_clampLengthMax_le v2 (m2 * dt⁻¹) hb2
  show dt * |clampLengthMax v1 (m1 * dt⁻¹) - clampLengthMax v2 (m2 * dt⁻¹)| ≤ m1 + m2
  have tri : |clampLengthMax v1 (m1 * dt⁻¹) - clampLengthMax v2 (m2 * dt⁻¹)|
      ≤ m1 * dt⁻¹ + m2 * dt⁻¹ :=
    le_trans (abs_sub _ _) (add_le_add hc1 hc2)
  have hmul := mul_le_mul_of_nonneg_left tri hdt.le
  have hne : dt ≠ 0 := ne_of_gt hdt
  have heq : dt * (m1 * dt⁻¹ + m2 * dt⁻¹) = m1 + m2 := by
    field_simp
  linarith

/-- C1: for every candidate pair processed by `handle_entity_pair`, the maximum
contact distance passed to manifold generation equals
`max(effective_margin, contact_tolerance) + collision_margin_sum`, where the
effective margin is `delta_time * |v1_clamped - v2_clamped|`, each side's
velocity is clamped in magnitude to its resolved speculative margin over
`delta_time` whenever that margin is finite (unclamped otherwise), speculative
margins resolve collider-override, else body-override, else the global
default, and the collision margin sum resolves collider override, else body
override, else 0 per side.  Stated for a positive time step and nonnegative
resolved speculative margins. -/
theorem max_contact_distance_matches_spec (cfg : NarrowPhaseCfg) (dt : Scalar)
    (c1 c2 : ColliderData) (b1 b2 : Option BodyBundle) (hdt : 0 < dt)
    (hm1 : (resolveSpeculativeMargin c1.speculative_margin
      (b1.bind BodyBundle.speculative_margin) cfg.default_speculative_margin).Nonneg)
    (hm2 : (resolveSpeculativeMargin c2.speculative_margin
      (b2.bind BodyBundle.speculative_margin) cfg.default_speculative_margin).Nonneg) :
    maxContactDistance cfg dt c1 c2 b1 b2 = specMaxContactDistance cfg dt c1 c2 b1 b2 := by
  have h1 := clampToSpeculativeMargin_eq_spec dt _ (linVel b1) hdt hm1
  have h2 := clampToSpeculativeMargin_eq_spec dt _ (linVel b2) hdt hm2
  simp only [maxContactDistance, specMaxContactDistance, effectiveSpeculativeMargin,
    collisionMarginSum, resolveCollisionMargin_eq_getD]
  rw [← resolveSpeculativeMargin_eq_getD, ← resolveSpeculativeMargin_eq_getD, h1, h2]

/-- Witness for C1 at a concrete input: time step 1, collider speculative
margins 2 and 3, velocities 5 and 1, one collision-margin override. -/
theorem max_contact_distance_matches_spec_witness :
    (0 : Scalar) < 1
    ∧ maxContactDistance cfgSample 1 colMarginA colMarginB (some bodyFast) (some bodySlow)
        = specMaxContactDistance cfgSample 1 colMarginA colMarginB (some bodyFast) (some bodySlow) :=
  ⟨by norm_num,
    max_contact_distance_matches_spec cfgSample 1 colMarginA colMarginB
      (some bodyFast) (some bodySlow) (by norm_num) (by decide) (by decide)⟩

/-- C7: when both sides resolve to finite nonnegative speculative margins and
one side is fast enough that the clamp engages (`delta_time * |v| > m`), the
maximum contact distance never exceeds the sum of the two speculative margins
(with the contact-tolerance floor) plus the collision-margin sum. -/
theorem speculative_margin_clamp_bound (cfg : NarrowPhaseCfg) (dt : Scalar)
    (c1 c2 : ColliderData) (b1 b2 : Option BodyBundle) (m1 m2 : Scalar)
    (hdt : 0 < dt)
    (h1 : resolveSpeculativeMargin c1.speculative_margin
      (b1.bind BodyBundle.speculative_margin) cfg.default_speculative_margin = .fin m1)
    (h2 : resolveSpeculativeMargin c2.speculative_margin
      (b2.bind BodyBundle.speculative_margin) cfg.default_speculative_margin = .fin m2)
    (hm1 : 0 ≤ m1) (hm2 : 0 ≤ m2)
    (hfast : m1 < dt * |linVel b1|) :
    maxContactDistance cfg dt c1 c2 b1 b2
      ≤ max (m1 + m2) cfg.contact_tolerance + collisionMarginSum c1 c2 b1 b2 := by
  have key := effectiveSpeculativeMargin_le dt m1 m2 (linVel b1) (linVel b2) hdt hm1 hm2
  simp only [maxContactDistance]
  rw [h1, h2]
  exact add_le_add_right (max_le_max key (le_refl cfg.contact_tolerance)) _

/-- Witness for C7 at a concrete input: margins 2 and 3, velocity 5 with time
step 1 (so the clamp engages on side 1). -/
theorem speculative_margin_clamp_bound_witness :
    (2 : Scalar) < 1 * |linVel (some bodyFast)|
    ∧ maxContactDistance cfgSample 1 colMarginA colMarginB (some bodyFast) (some bodySlow)
        ≤ max ((2 : Scalar) + 3) cfgSample.contact_tolerance
          + collisionMarginSum colMarginA colMarginB (some bodyFast) (some bodySlow) :=
  ⟨by
    rw [show linVel (some bodyFast) = 5 from rfl, abs_of_nonneg (by norm_num : (0 : Scalar) ≤ 5)]
    norm_num,
    speculative_margin_clamp_bound cfgSample 1 colMarginA colMarginB
      (some bodyFast) (some bodySlow) 2 3 (by norm_num) (by decide) (by decide)
      (by norm_num) (by norm_num)
      (by
        rw [show linVel (some bodyFast) = 5 from rfl,
          abs_of_nonneg (by norm_num : (0 : Scalar) ≤ 5)]
        norm_num)⟩

/-- C3: the constraint generator emits nothing — no contact constraint and no
queued command — when both bodies are static-or-sleeping, or when either side
is a sensor at the collider level or the body level, regardless of the
entry's manifold content (the statement quantifies over all `contacts` and
all constraint payload generators). -/
theorem generate_constraints_skip
    (conGen : Nat → ContactManifold → Scalar → ContactConstraint)
    (soft : SoftnessCoefficients) (contacts : Contacts)
    (body1 body2 : RigidBodyData) (collider1 collider2 : ColliderData)
    (h : ((body1.rb.is_static || body1.is_sleeping)
          && (body2.rb.is_static || body2.is_sleeping)) = true
      ∨ (collider1.is_sensor || body1.is_sensor) = true
      ∨ (collider2.is_sensor || body2.is_sensor) = true) :
    generateConstraints conGen soft contacts body1 body2 collider1 collider2 = ([], []) := by
  have hc : ((body1.rb.is_static || body1.is_sleeping)
        && (body2.rb.is_static || body2.is_sleeping)
      || (collider1.is_sensor || body1.is_sensor)
      || (collider2.is_sensor || body2.is_sensor)) = true := by
    rcases h with h | h | h <;> simp [h]
  simp [generateConstraints, hc]

/-- Witness for C3: two static bodies with a live manifold produce no
constraints and no commands. -/
theorem generate_constraints_skip_witness :
    ((bodyStaticA.rb.is_static || bodyStaticA.is_sleeping)
        && (bodyStaticB.rb.is_static || bodyStaticB.is_sleeping)) = true
    ∧ generateConstraints conGenSample softSample contactsLive bodyStaticA bodyStaticB
        colA colB = ([], []) :=
  ⟨by decide,
    generate_constraints_skip conGenSample softSample contactsLive bodyStaticA bodyStaticB
      colA colB (Or.inl (by decide))⟩

/-- C8: for an entry the constraint generator does not skip (no sensor on
either side) where exactly one body is sleeping and the other is active, a
deferred `WakeUpBody` command for the sleeping body is queued through the
command buffer.  The command list is computed independently of the constraint
payloads, so the wake-up is queued regardless of whether the per-manifold
constraints are later dropped for having zero points (the statement holds for
every `contacts` and every `conGen`). -/
theorem wake_up_command_queued
    (conGen : Nat → ContactManifold → Scalar → ContactConstraint)
    (soft : SoftnessCoefficients) (contacts : Contacts)
    (body1 body2 : RigidBodyData) (collider1 collider2 : ColliderData)
    (hs1 : collider1.is_sensor = false) (hb1 : body1.is_sensor = false)
    (hs2 : collider2.is_sensor = false) (hb2 : body2.is_sensor = false)
    (hone : (body1.is_sleeping = true ∧ body2.is_sleeping = false ∧ body2.rb.is_static = false)
      ∨ (body2.is_sleeping = true ∧ body1.is_sleeping = false ∧ body1.rb.is_static = false)) :
    PhysicsCommand.wakeUpBody (if body1.is_sleeping then body1.entity else body2.entity)
      ∈ (generateConstraints conGen soft contacts body1 body2 collider1 collider2).2 := by
  rcases hone with ⟨h1, h2, h3⟩ | ⟨h1, h2, h3⟩ <;>
    simp [generateConstraints, hs1, hs2, hb1, hb2, h1, h2, h3]

/-- Witness for C8: a sleeping dynamic body paired with an awake dynamic body
gets its wake-up command queued. -/
theorem wake_up_command_queued_witness :
    (bodySleeping.is_sleeping = true ∧ bodyAwake.is_sleeping = false
      ∧ bodyAwake.rb.is_static = false)
    ∧ PhysicsCommand.wakeUpBody
        (if bodySleeping.is_sleeping then bodySleeping.entity else bodyAwake.entity)
      ∈ (generateConstraints conGenSample softSample contactsLive bodySleeping bodyAwake
          colA colB).2 :=
  ⟨by decide,
    wake_up_command_queued conGenSample softSample contactsLive bodySleeping bodyAwake
      colA colB (by decide) (by decide) (by decide) (by decide) (Or.inl (by decide))⟩

/-- C5: the pre-collection reset truth table.  When both resolved entities
exist and either body is active (not static, not sleeping), the entry gets
`during_previous_frame = true`, `during_current_frame = false`; when both
exist but are inactive, `during_current_frame` is kept `true`; when either
entity no longer exists, the entry gets `during_previous_frame = true`,
`during_current_frame = false` (terminal).  The last conjunct states that
`reset_collision_states` applies this per-entry update to every registry
entry. -/
theorem reset_collision_states_truth_table
    (query : Entity → Option (Option RBKind × Bool)) (c : Contacts) :
    (∀ rb1 s1 rb2 s2,
      query (c.body_entity1.getD c.entity1) = some (rb1, s1) →
      query (c.body_entity2.getD c.entity2) = some (rb2, s2) →
      ((!(rb1.elim false RBKind.is_static) && !s1)
        || (!(rb2.elim false RBKind.is_static) && !s2)) = true →
      (resetEntry query c).during_previous_frame = true
        ∧ (resetEntry query c).during_current_frame = false)
    ∧ (∀ rb1 s1 rb2 s2,
      query (c.body_entity1.getD c.entity1) = some (rb1, s1) →
      query (c.body_entity2.getD c.entity2) = some (rb2, s2) →
      ((!(rb1.elim false RBKind.is_static) && !s1)
        || (!(rb2.elim false RBKind.is_static) && !s2)) = false →
      (resetEntry query c).during_previous_frame = true
        ∧ (resetEntry query c).during_current_frame = true)
    ∧ ((query (c.body_entity1.getD c.entity1) = none
        ∨ query (c.body_entity2.getD c.entity2) = none) →
      (resetEntry query c).during_previous_frame = true
        ∧ (resetEntry query c).during_current_frame = false)
    ∧ (∀ (reg : Registry) (k : Entity × Entity),
      getPair (resetCollisionStates query reg) k
        = (getPair reg k).map (resetEntry query)) := by
  refine ⟨?_, ?_, ?_, getPair_resetCollisionStates query⟩
  · intro rb1 s1 rb2 s2 hq1 hq2 hact
    unfold resetEntry
    rw [hq1, hq2]
    simp [hact]
  · intro rb1 s1 rb2 s2 hq1 hq2 hact
    unfold resetEntry
    rw [hq1, hq2]
    simp [hact]
  · intro h
    unfold resetEntry
    rcases h with h | h
    · rw [h]
      exact ⟨rfl, rfl⟩
    · rcases hq1 : query (c.body_entity1.getD c.entity1) with _ | p1
      · exact ⟨rfl, rfl⟩
      · rcases p1 with ⟨rb1, s1⟩
        rw [h]
        exact ⟨rfl, rfl⟩

/-- Witness for C5: the live entry with a dynamic awake body 10 is reset to
(previous = true, current = false). -/
theorem reset_collision_states_truth_table_witness :
    queryActive (contactsLive.body_entity1.getD contactsLive.entity1)
        = some (some RBKind.dynamic, false)
    ∧ (resetEntry queryActive contactsLive).during_previous_frame = true
    ∧ (resetEntry queryActive contactsLive).during_current_frame = false := by
  refine ⟨rfl, ?_, ?_⟩
  · exact ((reset_collision_states_truth_table queryActive contactsLive).1
      (some RBKind.dynamic) false (some RBKind.staticBody) false rfl rfl (by decide)).1
  · exact ((reset_collision_states_truth_table queryActive contactsLive).1
      (some RBKind.dynamic) false (some RBKind.staticBody) false rfl rfl (by decide)).2

/-- C6: the registry key is canonical over the unordered pair: both
orientations produce the same key, the key is strictly ordered
(`entity1 < entity2`), the previous-frame lookup used for warm starting
orders the two entities before querying the registry, and registering the
pair in either orientation resolves to the same single registry entry. -/
theorem canonical_pair_registry (reg : Registry) (a b : Entity) (cab cba : Contacts)
    (hab : a ≠ b) (h1 : cab.entity1 = a) (h2 : cab.entity2 = b)
    (h3 : cba.entity1 = b) (h4 : cba.entity2 = a) :
    canonicalKey a b = canonicalKey b a
    ∧ (canonicalKey a b).1 < (canonicalKey a b).2
    ∧ previousContactsLookup reg a b = previousContactsLookup reg b a
    ∧ getPair (insertCollisionPair reg cab) (canonicalKey a b) = some cab
    ∧ getPair (insertCollisionPair reg cba) (canonicalKey a b) = some cba := by
  have hins1 : canonicalKey cab.entity1 cab.entity2 = canonicalKey a b := by rw [h1, h2]
  have hins2 : canonicalKey cba.entity1 cba.entity2 = canonicalKey b a := by rw [h3, h4]
  rcases lt_trichotomy a b with h | h | h
  · have hba : ¬ b < a := lt_asymm h
    have hkey : canonicalKey b a = canonicalKey a b := by simp [canonicalKey, h, hba]
    refine ⟨hkey.symm, ?_, ?_, ?_, ?_⟩
    · simpa [canonicalKey, h] using h
    · simp [previousContactsLookup, h, hba]
    · rw [insertCollisionPair, hins1]
      exact getPair_setPair_self reg _ cab
    · rw [insertCollisionPair, hins2, hkey]
      exact getPair_setPair_self reg _ cba
  · exact absurd h hab
  · have hba : ¬ a < b := lt_asymm h
    have hkey : canonicalKey b a = canonicalKey a b := by simp [canonicalKey, h, hba]
    refine ⟨hkey.symm, ?_, ?_, ?_, ?_⟩
    · simpa [canonicalKey, hba] using h
    · simp [previousContactsLookup, h, hba]
    · rw [insertCollisionPair, hins1]
      exact getPair_setPair_self reg _ cab
    · rw [insertCollisionPair, hins2, hkey]
      exact getPair_setPair_self reg _ cba

/-- Witness for C6: entities 1 and 2 in both orientations, inserted into the
empty registry. -/
theorem canonical_pair_registry_witness :
    (1 : Entity) ≠ 2
    ∧ (canonicalKey 1 2 = canonicalKey 2 1
      ∧ (canonicalKey 1 2).1 < (canonicalKey 1 2).2
      ∧ previousContactsLookup [] 1 2 = previousContactsLookup [] 2 1
      ∧ getPair (insertCollisionPair [] contactsLive) (canonicalKey 1 2) = some contactsLive
      ∧ getPair (insertCollisionPair [] contactsSwapped) (canonicalKey 1 2)
          = some contactsSwapped) :=
  ⟨by decide,
    canonical_pair_registry [] 1 2 contactsLive contactsSwapped (by decide) rfl rfl rfl rfl⟩

theorem resetEntry_eq_active (query : Entity → Option (Option RBKind × Bool))
    (c : Contacts) (rb1 : Option RBKind) (s1 : Bool) (rb2 : Option RBKind) (s2 : Bool)
    (hq1 : query (c.body_entity1.getD c.entity1) = some (rb1, s1))
    (hq2 : query (c.body_entity2.getD c.entity2) = some (rb2, s2))
    (hact : ((!(rb1.elim false RBKind.is_static) && !s1)
      || (!(rb2.elim false RBKind.is_static) && !s2)) = true) :
    resetEntry query c
      = { c with during_previous_frame := true, during_current_frame := false } := by
  unfold resetEntry
  rw [hq1, hq2]
  simp [hact]

theorem computeContactPair_eq (cfg : NarrowPhaseCfg) (lengthUnit : Scalar)
    (reg : Registry) (c1 c2 : ColliderData) (fr rs : Scalar)
    (oms : List ContactManifold) (hook : Contacts → Bool × Contacts)
    (hne : oms ≠ []) :
    computeContactPair cfg lengthUnit reg c1 c2 fr rs oms hook
      = (if c1.modify_contacts_hook || c2.modify_contacts_hook then
          match hook (buildContacts c1 c2 (previousContactsLookup reg c1.entity c2.entity)
              (stampManifolds fr rs oms)) with
          | (true, c') => some c'
          | (false, _) => none
        else some (buildContacts c1 c2 (previousContactsLookup reg c1.entity c2.entity)
            (stampManifolds fr rs oms))).bind
        (fun c =>
          if c.manifolds.isEmpty then none
          else some (warmStartMatch cfg.match_contacts lengthUnit
            (previousContactsLookup reg c1.entity c2.entity) c)) := by
  have hOE : oms.isEmpty = false := by
    cases oms with
    | nil => exact absurd rfl hne
    | cons a as => rfl
  simp only [computeContactPair, hOE, Bool.false_eq_true, if_false]

/-- C2: a registry entry is removed exactly one step after its last step with
`during_current_frame = true`.  For an entry whose pair produces no manifolds
this step while a resolved body is active: at the contact-reporting stage the
entry is still present with `during_previous_frame = true` and
`during_current_frame = false` (the observable end transition), and after the
post-reporting eviction pass of the same schedule run — one step after the
last step that set its flag — the entry is gone.  The final conjunct states
that the eviction pass removes exactly the entries whose
`during_current_frame` flag is false. -/
theorem lifecycle_one_step_eviction
    (query : Entity → Option (Option RBKind × Bool)) (cfg : NarrowPhaseCfg)
    (lengthUnit : Scalar) (pairs : List PairInput) (reg : Registry)
    (k : Entity × Entity) (c : Contacts) (rb1 : Option RBKind) (s1 : Bool)
    (rb2 : Option RBKind) (s2 : Bool)
    (hnd : keysNodup reg)
    (hget : getPair reg k = some c)
    (hq1 : query (c.body_entity1.getD c.entity1) = some (rb1, s1))
    (hq2 : query (c.body_entity2.getD c.entity2) = some (rb2, s2))
    (hactive : ((!(rb1.elim false RBKind.is_static) && !s1)
      || (!(rb2.elim false RBKind.is_static) && !s2)) = true)
    (hnogen : ∀ pi ∈ pairs, ∀ (r : Registry) (c' : Contacts),
      computeContactPair cfg lengthUnit r pi.collider1 pi.collider2 pi.friction
        pi.restitution pi.manifolds pi.hook = some c' →
      canonicalKey c'.entity1 c'.entity2 ≠ k) :
    getPair (registryAtReporting query cfg lengthUnit pairs reg) k
        = some (resetEntry query c)
      ∧ (resetEntry query c).during_previous_frame = true
      ∧ (resetEntry query c).during_current_frame = false
      ∧ getPair (narrowPhaseStep query cfg lengthUnit pairs reg) k = none
      ∧ (∀ (r : Registry) (k' : Entity × Entity) (c' : Contacts), keysNodup r →
          getPair r k' = some c' →
          getPair (removeEndedCollisions r) k'
            = if c'.during_current_frame = true then some c' else none) := by
  have hreset : getPair (resetCollisionStates query reg) k = some (resetEntry query c) := by
    rw [getPair_resetCollisionStates, hget]
    rfl
  have hrep : getPair (registryAtReporting query cfg lengthUnit pairs reg) k
      = some (resetEntry query c) := by
    rw [registryAtReporting,
      getPair_collectCollisions_of_no_insert cfg lengthUnit pairs _ k hnogen]
    exact hreset
  have hflags : (resetEntry query c).during_previous_frame = true
      ∧ (resetEntry query c).during_current_frame = false := by
    rw [resetEntry_eq_active query c rb1 s1 rb2 s2 hq1 hq2 hactive]
    exact ⟨rfl, rfl⟩
  have hndR : keysNodup (registryAtReporting query cfg lengthUnit pairs reg) :=
    keysNodup_collectCollisions cfg lengthUnit pairs _
      (keysNodup_resetCollisionStates query reg hnd)
  have hev : getPair (narrowPhaseStep query cfg lengthUnit pairs reg) k = none := by
    rw [narrowPhaseStep,
      getPair_removeEndedCollisions _ k (resetEntry query c) hndR hrep]
    simp [hflags.2]
  exact ⟨hrep, hflags.1, hflags.2, hev,
    fun r k' c' hnd' hget' => getPair_removeEndedCollisions r k' c' hnd' hget'⟩

/-- Witness for C2: the live pair (1, 2) stops generating manifolds while its
body 10 is active; the entry is observable with the end-transition flags at
reporting and gone after the step's eviction. -/
theorem lifecycle_one_step_eviction_witness :
    getPair regLive (1, 2) = some contactsLive
    ∧ getPair (registryAtReporting queryActive cfgSample 1 [pairStops] regLive) (1, 2)
        = some (resetEntry queryActive contactsLive)
    ∧ (resetEntry queryActive contactsLive).during_previous_frame = true
    ∧ (resetEntry queryActive contactsLive).during_current_frame = false
    ∧ getPair (narrowPhaseStep queryActive cfgSample 1 [pairStops] regLive) (1, 2) = none := by
  have h := lifecycle_one_step_eviction queryActive cfgSample 1 [pairStops] regLive (1, 2)
    contactsLive (some RBKind.dynamic) false (some RBKind.staticBody) false
    (by decide) (by decide) rfl rfl (by decide)
    (by
      intro pi hpi r c' hc
      rw [List.mem_singleton] at hpi
      subst hpi
      simp [pairStops, computeContactPair] at hc)
  exact ⟨by decide, h.1, h.2.1, h.2.2.1, h.2.2.2.1⟩

/-- C4: warm-start contact matching runs only when the pair's new manifold
count is at most 4 and the `match_contacts` flag is enabled; in that case
every new manifold is matched against every previous manifold of the pair at
distance threshold `0.1 * length_unit`, and point matching (by feature id, or
else by nearest position within the threshold) copies the previous point's
accumulated normal/tangent impulses while unmatched points are left with
their freshly generated (zero) impulses. -/
theorem warm_start_contact_matching (flag : Bool) (lengthUnit : Scalar)
    (prev c : Contacts) :
    (¬(c.manifolds.length ≤ 4 ∧ flag = true) →
      warmStartMatch flag lengthUnit (some prev) c = c)
    ∧ ((c.manifolds.length ≤ 4 ∧ flag = true) →
      warmStartMatch flag lengthUnit (some prev) c
        = { c with manifolds := c.manifolds.map (fun m =>
            prev.manifolds.foldl
              (fun m' pm => m'.matchContacts pm.points (1 / 10 * lengthUnit)) m) })
    ∧ (∀ (prevPoints : List ContactPoint) (thr : Scalar) (p : ContactPoint),
      (∃ q ∈ prevPoints,
        ((∃ i, p.feature_id = some i ∧ q.feature_id = some i)
          ∨ (p.feature_id = none ∧ |q.position - p.position| ≤ thr))
        ∧ matchPoint prevPoints thr p
            = { p with normal_impulse := q.normal_impulse,
                       tangent_impulse := q.tangent_impulse })
      ∨ matchPoint prevPoints thr p = p) := by
  refine ⟨?_, ?_, ?_⟩
  · intro h
    unfold warmStartMatch
    rw [if_neg h]
  · intro h
    unfold warmStartMatch
    rw [if_pos h]
  · intro prevPoints thr p
    obtain ⟨pfi, ppos, pni, pti⟩ := p
    cases pfi with
    | none =>
      rcases hnw : nearestWithin prevPoints thr ppos with _ | q
      · right
        simp only [matchPoint, hnw]
      · left
        obtain ⟨hmem, hdist⟩ := nearestWithin_mem prevPoints thr ppos q hnw
        exact ⟨q, hmem, Or.inr ⟨rfl, hdist⟩, by simp only [matchPoint, hnw]⟩
    | some i =>
      rcases hf : prevPoints.find? (fun q => decide (q.feature_id = some i)) with _ | q
      · right
        simp only [matchPoint, hf]
      · left
        have hmem := List.mem_of_find?_eq_some hf
        have hpred : q.feature_id = some i := by
          have h2 := List.find?_some hf
          simpa using h2
        exact ⟨q, hmem, Or.inl ⟨i, rfl, hpred⟩, by simp only [matchPoint, hf]⟩

/-- Witness for C4: one manifold (≤ 4) with matching enabled is matched
against the previous entry's manifolds. -/
theorem warm_start_contact_matching_witness :
    (contactsLive.manifolds.length ≤ 4 ∧ true = true)
    ∧ warmStartMatch true 1 (some contactsLive) contactsLive
        = { contactsLive with manifolds := contactsLive.manifolds.map (fun m =>
            contactsLive.manifolds.foldl
              (fun m' pm => m'.matchContacts pm.points (1 / 10 * 1)) m) } :=
  ⟨by decide,
    (warm_start_contact_matching true 1 contactsLive contactsLive).2.1 (by decide)⟩

/-- C9 (amended): when either collider declares the modify-contacts
capability, the hook decides the pair's fate for this step's collection:
returning false discards the pair (no `Contacts` value, and the collection
step leaves the registry unchanged); returning true keeps the hook's mutated
contacts, which are discarded if the mutated manifold list is empty and
otherwise flow, warm-start matched, into the returned `Contacts`.  A
rejection does not remove a registry entry persisting from a previous step,
so — unlike what the original claim states — the constraint generator can
still emit constraints from that entry's stale manifolds this step (see the
counterexample below). -/
theorem hook_filter_discards (cfg : NarrowPhaseCfg) (lengthUnit : Scalar)
    (reg : Registry) (c1 c2 : ColliderData) (fr rs : Scalar)
    (oms : List ContactManifold) (hook : Contacts → Bool × Contacts)
    (hcap : (c1.modify_contacts_hook || c2.modify_contacts_hook) = true)
    (hne : oms ≠ []) :
    ((hook (buildContacts c1 c2 (previousContactsLookup reg c1.entity c2.entity)
        (stampManifolds fr rs oms))).1 = false →
      computeContactPair cfg lengthUnit reg c1 c2 fr rs oms hook = none)
    ∧ ((hook (buildContacts c1 c2 (previousContactsLookup reg c1.entity c2.entity)
        (stampManifolds fr rs oms))).1 = true →
      (hook (buildContacts c1 c2 (previousContactsLookup reg c1.entity c2.entity)
        (stampManifolds fr rs oms))).2.manifolds = [] →
      computeContactPair cfg lengthUnit reg c1 c2 fr rs oms hook = none)
    ∧ ((hook (buildContacts c1 c2 (previousContactsLookup reg c1.entity c2.entity)
        (stampManifolds fr rs oms))).1 = true →
      (hook (buildContacts c1 c2 (previousContactsLookup reg c1.entity c2.entity)
        (stampManifolds fr rs oms))).2.manifolds ≠ [] →
      computeContactPair cfg lengthUnit reg c1 c2 fr rs oms hook
        = some (warmStartMatch cfg.match_contacts lengthUnit
            (previousContactsLookup reg c1.entity c2.entity)
            (hook (buildContacts c1 c2 (previousContactsLookup reg c1.entity c2.entity)
              (stampManifolds fr rs oms))).2))
    ∧ (computeContactPair cfg lengthUnit reg c1 c2 fr rs oms hook = none →
      collectCollisions cfg lengthUnit [⟨c1, c2, fr, rs, oms, hook⟩] reg = reg) := by
  rcases hhook : hook (buildContacts c1 c2 (previousContactsLookup reg c1.entity c2.entity)
      (stampManifolds fr rs oms)) with ⟨keep, cm⟩
  rw [computeContactPair_eq cfg lengthUnit reg c1 c2 fr rs oms hook hne]
  refine ⟨?_, ?_, ?_, ?_⟩
  · intro hf
    simp only at hf
    subst hf
    simp [hcap, hhook]
  · intro ht hm
    simp only at ht hm
    subst ht
    simp [hcap, hhook, hm, List.isEmpty_iff]
  · intro ht hm
    simp only at ht hm
    subst ht
    have hm2 : cm.manifolds.isEmpty = false := by
      cases hme : cm.manifolds with
      | nil => exact absurd hme hm
      | cons a as => rfl
    simp [hcap, hhook, hm2, hm]
  · intro hnone
    simp only [collectCollisions, List.foldl_cons, List.foldl_nil, collectStep]
    rw [show computeContactPair cfg lengthUnit reg c1 c2 fr rs oms hook
      = ((if c1.modify_contacts_hook || c2.modify_contacts_hook then
          match hook (buildContacts c1 c2 (previousContactsLookup reg c1.entity c2.entity)
              (stampManifolds fr rs oms)) with
          | (true, c') => some c'
          | (false, _) => none
        else some (buildContacts c1 c2 (previousContactsLookup reg c1.entity c2.entity)
            (stampManifolds fr rs oms))).bind
        (fun c =>
          if c.manifolds.isEmpty then none
          else some (warmStartMatch cfg.match_contacts lengthUnit
            (previousContactsLookup reg c1.entity c2.entity) c)))
      from computeContactPair_eq cfg lengthUnit reg c1 c2 fr rs oms hook hne, hnone]

/-- Witness for C9: a rejecting hook on a pair with the capability discards
the pair and leaves the registry untouched. -/
theorem hook_filter_discards_witness :
    (colHookA.modify_contacts_hook || colB.modify_contacts_hook) = true
    ∧ (hookRejectAll (buildContacts colHookA colB
        (previousContactsLookup [] colHookA.entity colB.entity)
        (stampManifolds 0 0 [sampleManifold]))).1 = false
    ∧ computeContactPair cfgSample 1 [] colHookA colB 0 0 [sampleManifold] hookRejectAll = none
    ∧ collectCollisions cfgSample 1 [⟨colHookA, colB, 0, 0, [sampleManifold], hookRejectAll⟩] []
        = [] := by
  have h := hook_filter_discards cfgSample 1 [] colHookA colB 0 0 [sampleManifold]
    hookRejectAll (by decide) (by decide)
  have hnone := h.1 (by decide)
  exact ⟨by decide, by decide, hnone, h.2.2.2 hnone⟩

/-- Counterexample to C9 as stated: the claim's "no constraints for that
step" fails for a pair with a persisting registry entry.  Pair (1, 2)
collided last step (`contactsLive` is in the registry); this step its hook
rejects it, so `computeContactPair` returns none and the collection pass
leaves the stale entry in place (eviction runs only after contact
reporting); the constraint generator, which iterates every registry entry
with no `during_current_frame` filter, still emits a constraint from the
entry's stale manifolds. -/
theorem hook_reject_stale_constraints_counterexample :
    computeContactPair cfgSample 1 (resetCollisionStates queryActive regLive) colHookA colB
        2 3 [sampleManifold] hookRejectAll = none
    ∧ getPair (registryAtReporting queryActive cfgSample 1 [pairReject] regLive) (1, 2)
        = some (resetEntry queryActive contactsLive)
    ∧ (resetEntry queryActive contactsLive).during_current_frame = false
    ∧ (generateConstraints conGenSample softSample (resetEntry queryActive contactsLive)
        bodyAwakeA bodyAwake colHookA colB).1 = [⟨0, [samplePoint]⟩] :=
  ⟨by decide, by decide, by decide, by decide⟩

/-- C10 (amended): every `Contacts` value returned by `compute_contact_pair`
when the modify-contacts hook is not invoked (neither collider declares the
capability) has `during_current_frame = true` and `during_previous_frame`
equal to the existing registry entry's flag; with no existing entry,
`during_previous_frame = false`, the observable begin transition. -/
theorem compute_contact_pair_flags_no_hook (cfg : NarrowPhaseCfg) (lengthUnit : Scalar)
    (reg : Registry) (c1 c2 : ColliderData) (fr rs : Scalar)
    (oms : List ContactManifold) (hook : Contacts → Bool × Contacts) (c : Contacts)
    (h1 : c1.modify_contacts_hook = false) (h2 : c2.modify_contacts_hook = false)
    (hc : computeContactPair cfg lengthUnit reg c1 c2 fr rs oms hook = some c) :
    c.during_current_frame = true
    ∧ c.during_previous_frame
        = (previousContactsLookup reg c1.entity c2.entity).elim false
            Contacts.during_previous_frame
    ∧ (previousContactsLookup reg c1.entity c2.entity = none →
        c.during_previous_frame = false) := by
  by_cases hne : oms = []
  · subst hne
    simp [computeContactPair] at hc
  · rw [computeContactPair_eq cfg lengthUnit reg c1 c2 fr rs oms hook hne] at hc
    rw [h1, h2] at hc
    simp only [Bool.or_self, Bool.false_eq_true, if_false, Option.bind_some,
      Option.some_bind] at hc
    split at hc
    · exact absurd hc (by simp)
    · injection hc with hc
      subst hc
      refine ⟨?_, ?_, ?_⟩
      · rw [warmStartMatch_during_current_frame]
        rfl
      · rw [warmStartMatch_during_previous_frame]
        rfl
      · intro hprev
        rw [warmStartMatch_during_previous_frame]
        show (previousContactsLookup reg c1.entity c2.entity).elim false
          Contacts.during_previous_frame = false
        rw [hprev]
        rfl

/-- Witness for C10 (amended): a hook-free run against the live registry
carries the previous entry's `during_previous_frame` forward and sets
`during_current_frame`. -/
theorem compute_contact_pair_flags_no_hook_witness :
    computeContactPair cfgSample 1 regLive colA colB 2 3 [sampleManifold]
        hookKeepAll = some noHookResult
    ∧ noHookResult.during_current_frame = true
    ∧ noHookResult.during_previous_frame
        = (previousContactsLookup regLive colA.entity colB.entity).elim false
            Contacts.during_previous_frame := by
  have h := compute_contact_pair_flags_no_hook cfgSample 1 regLive colA colB 2 3
    [sampleManifold] hookKeepAll noHookResult rfl rfl (by decide)
  exact ⟨by decide, h.1, h.2.1⟩

/-- Counterexample to C10 as stated: with the modify-contacts capability
active, a hook that clears `during_current_frame` and returns true has its
mutation honored, so `compute_contact_pair` returns a `Contacts` value whose
`during_current_frame` is false. -/
theorem contacts_flags_hook_counterexample :
    computeContactPair cfgSample 1 [] colHookA colB 2 3 [sampleManifold]
        hookFlipCurrent = some hookFlipResult
    ∧ hookFlipResult.during_current_frame = false :=
  ⟨by decide, rfl⟩

end Avian
